import Mathlib

/-!
Verification development for the proman TUI repository manager
(source file proman/tui_repos.py).

The embedding translates the pure decision logic of the source into Lean
definitions.  Terminal rendering, the GitHub client, the git subprocesses and
the filesystem are collaborators: they are modelled as explicit inputs
(environment records) and as an abstract filesystem value (a list of existing
paths) acted on by the operation trace the code emits.  Every definition
follows the corresponding Python code; definitions whose name starts with
`spec` follow the natural-language specification instead and exist only to be
compared with the code-derived definitions.
-/

namespace Proman

/-! ### String helpers

Structural re-implementations of the string operations the source uses
(`str.startswith`, `str.lower`, splitting on the path separator), written on
`List Char` so that concrete instances reduce inside the kernel. -/

/-- `pre` occurs at the start of `s` (Python `s.startswith(pre)`). -/
def chListLeads : List Char → List Char → Bool
  | [], _ => true
  | _ :: _, [] => false
  | a :: as, b :: bs => a == b && chListLeads as bs

/-- Python `s.startswith(pre)`. -/
def strStarts (s pre : String) : Bool := chListLeads pre.data s.data

/-- ASCII lower-casing of one character (enough for the y/n confirmations). -/
def lowChar (c : Char) : Char :=
  if 'A' ≤ c && c ≤ 'Z' then Char.ofNat (c.toNat + 32) else c

/-- Python `s.lower()` restricted to ASCII. -/
def lowStr (s : String) : String := ⟨s.data.map lowChar⟩

/-- Python `confirm and confirm.lower().startswith("y")`: the idiom every
confirmation prompt in the source uses. -/
def yesAnswer (s : String) : Bool := (s != "") && strStarts (lowStr s) "y"

/-! ### PathSafety (tui_repos.py lines 469-478)

The source computes `os.path.abspath` of both the projects root and the
candidate and compares them textually.  `os.path.abspath` on an absolute
POSIX path is `os.path.normpath`: purely lexical processing of `.` , `..`
and empty segments, with no symlink resolution. -/

/-- Split a character list on the path separator. -/
def splitSlashAux : List Char → List Char → List (List Char)
  | [], cur => [cur.reverse]
  | c :: rest, cur =>
      if c == '/' then cur.reverse :: splitSlashAux rest []
      else splitSlashAux rest (c :: cur)

/-- Segments of a path string. -/
def pathSegments (p : String) : List String :=
  (splitSlashAux p.data []).map (fun cs => ⟨cs⟩)

/-- One step of `os.path.normpath` segment processing on an absolute path:
empty and `.` segments are dropped, `..` pops the last kept segment (at the
root it is dropped, as normpath does for absolute paths). -/
def pushSeg (stack : List String) (s : String) : List String :=
  if s == "" || s == "." then stack
  else if s == ".." then stack.dropLast
  else stack ++ [s]

/-- Reassemble normalized segments into an absolute path. -/
def joinAbs (segs : List String) : String :=
  segs.foldl (fun acc s => acc ++ "/" ++ s) ""

/-- `os.path.abspath` on an absolute path: lexical normalization only. -/
def normAbs (p : String) : String :=
  let segs := (pathSegments p).foldl pushSeg []
  if segs.isEmpty then "/" else joinAbs segs

/-- The containment check of tui_repos.py lines 470-472:
`abs_local == proj_root or abs_local.startswith(proj_root + os.sep)`
after taking `os.path.abspath` of both sides. -/
def isContained (root cand : String) : Bool :=
  let pr := normAbs root
  let al := normAbs cand
  al == pr || strStarts al (pr ++ "/")

/-! Spec-side definition for the refinement comparison of the containment
check.  The specification says the check resolves both paths to absolute,
symlink-free canonical paths; to state that, a filesystem symlink table is
modelled as an association list from a link path to its target, and a path is
canonicalized by rewriting the first matching link prefix. -/

/-- Modelled from the spec (refinement side of PathSafety): symlink-free
canonicalization of an already normalized path against a symlink table. -/
def resolveSymlinks (links : List (String × String)) (p : String) : String :=
  match links.find? (fun l => p == l.fst || strStarts p (l.fst ++ "/")) with
  | some l => l.snd ++ (p.drop l.fst.length)
  | none => p

/-- Modelled from the spec (refinement side of PathSafety): containment after
resolving both paths to absolute, symlink-free canonical form. -/
def specIsContained (links : List (String × String)) (root cand : String) : Bool :=
  let pr := resolveSymlinks links (normAbs root)
  let al := resolveSymlinks links (normAbs cand)
  al == pr || strStarts al (pr ++ "/")

/-- A filesystem in which `/home/u/projekte/link` is a symlink to `/etc`. -/
def evilLinks : List (String × String) := [("/home/u/projekte/link", "/etc")]

/-! ### Data model

The record dictionaries produced by `build_repo_dicts_progress`, restricted to
the keys the dispatched actions read.  `private` is a Lean keyword, so that
dict key is embedded as `isPrivate`. -/

/-- One repository record (the dict `rdata` of the source). -/
structure Rec where
  name : String
  full_name : String
  description : Option String
  isPrivate : Bool
  cloned : Bool
  ssh_url : String
  html_url : String
deriving DecidableEq

/-- `rdata.get('name') or rdata.get('full_name')` (Python `or`: empty string
is falsy). -/
def repoNameOf (rd : Rec) : String :=
  if rd.name == "" then rd.full_name else rd.name

/-- `os.path.expanduser(f"~/projekte/{repo_name}")` with `home` standing for
the expanded home directory. -/
def localPathOf (home : String) (rd : Rec) : String :=
  home ++ "/projekte/" ++ repoNameOf rd

/-- `rdata.get('ssh_url') or rdata.get('html_url')`. -/
def cloneUrlOf (rd : Rec) : String :=
  if rd.ssh_url == "" then rd.html_url else rd.ssh_url

/-- `os.path.dirname`: the text before the final path separator. -/
def dirnameStr (p : String) : String :=
  match (p.data.reverse).dropWhile (fun c => c != '/') with
  | [] => ""
  | _ :: tail => if tail.isEmpty then "/" else ⟨tail.reverse⟩

/-- One audit log line exactly as the source formats it (note that the
success flag renders as Python `True`/`False`). -/
def auditLine (ts act full lp : String) (success : Bool) (err : Option String) : String :=
  ts ++ " " ++ act ++ " repo=" ++ full ++ " local_path=" ++ lp ++ " success=" ++
    (if success then "True" else "False") ++
    (match err with
     | some e => " error=" ++ e
     | none => "")

/-! ### Filesystem operation trace

Mutating filesystem calls the TUI itself performs, in program order.  The
abstract filesystem is the list of existing paths; `git clone` is an external
collaborator whose own effect on the tree is not modelled (the trace records
that the subprocess was invoked). -/

/-- A mutating filesystem call issued by the TUI. -/
inductive FsOp where
  | rmtreeOp (p : String)
  | makedirsOp (p : String)
  | gitClone (url dest : String)
deriving DecidableEq

/-- Effect of one call on the abstract filesystem. -/
def applyOp (fs : List String) : FsOp → List String
  | FsOp.rmtreeOp p => fs.filter (fun q => !(q == p || strStarts q (p ++ "/")))
  | FsOp.makedirsOp p => if fs.contains p then fs else fs ++ [p]
  | FsOp.gitClone _ _ => fs

/-- Effect of a call trace. -/
def applyOps (fs : List String) (ops : List FsOp) : List String :=
  ops.foldl applyOp fs

/-- `show_details` either returns True (main loop reloads everything) or
loops back to the detail screen (`continue`). -/
inductive DetailRes where
  | reload
  | stay
deriving DecidableEq

/-- Observable outcome of one dispatched detail-screen action: the filesystem
calls made (in order), the audit lines appended (in order), the final value of
the record's cloned flag, the control-flow result and the user message. -/
structure ActionResult where
  ops : List FsOp
  log : List String
  cloned : Bool
  res : DetailRes
  msg : String
deriving DecidableEq

/-! ### Clone action (key l, tui_repos.py lines 353-436) -/

/-- Collaborator responses the clone flow branches on: whether the target
path exists, the overwrite confirmation line, whether `shutil.rmtree` raises,
and the `git clone` subprocess result. -/
structure CloneEnv where
  targetExists : Bool
  confirm : String
  rmtreeFails : Bool
  cloneRc : Nat
  cloneStdout : String
  cloneStderr : String
deriving DecidableEq

/-- Lines 384-429: ensure the parent directory, run `git clone`, then log and
branch on the return code.  `pre`/`preLog` carry the operations and audit
lines of a confirmed overwrite that already happened. -/
def cloneProceed (home ts : String) (rd : Rec) (env : CloneEnv)
    (pre : List FsOp) (preLog : List String) : ActionResult :=
  let lp := localPathOf home rd
  let ops := pre ++ [FsOp.makedirsOp (dirnameStr lp), FsOp.gitClone (cloneUrlOf rd) lp]
  if env.cloneRc == 0 then
    ⟨ops, preLog ++ [auditLine ts "clone" rd.full_name lp true none],
      true, DetailRes.reload, "Klonen erfolgreich: " ++ lp⟩
  else
    let err := if env.cloneStderr == "" then env.cloneStdout else env.cloneStderr
    ⟨ops, preLog ++ [auditLine ts "clone" rd.full_name lp false (some err)],
      rd.cloned, DetailRes.stay, "Fehler beim Klonen: " ++ err⟩

/-- The whole key-l branch: if the target exists, an overwrite must be
confirmed with a y-prefixed answer and the old tree removed first; otherwise
the flow continues straight to the clone. -/
def showDetailsClone (home ts : String) (rd : Rec) (env : CloneEnv) : ActionResult :=
  let lp := localPathOf home rd
  if env.targetExists then
    if yesAnswer env.confirm then
      if env.rmtreeFails then
        ⟨[FsOp.rmtreeOp lp], [], rd.cloned, DetailRes.stay, "Fehler beim lokalen Loeschen"⟩
      else
        cloneProceed home ts rd env [FsOp.rmtreeOp lp]
          [auditLine ts "local_delete_before_clone" rd.full_name lp true none]
    else
      ⟨[], [], rd.cloned, DetailRes.stay, ""⟩
  else
    cloneProceed home ts rd env [] []

/-! ### Local delete action (key L, tui_repos.py lines 437-507)

The `git status --porcelain` and `git rev-list` probes are read-only
subprocess calls that only feed the confirmation prompt text; they are not
part of the mutation trace and are elided from the environment. -/

/-- Collaborator responses the local-delete flow branches on. -/
structure DeleteLocalEnv where
  targetExists : Bool
  confirm : String
  rmtreeFails : Bool
deriving DecidableEq

/-- The whole key-L branch.  When the path is missing the flow reports it and
performs nothing; otherwise after a y-confirmation the containment check of
lines 469-472 gates the `rmtree`. -/
def showDetailsDeleteLocal (home ts : String) (rd : Rec) (env : DeleteLocalEnv) : ActionResult :=
  let lp := localPathOf home rd
  if !env.targetExists then
    ⟨[], [], rd.cloned, DetailRes.stay, "Lokaler Pfad nicht vorhanden: " ++ lp⟩
  else if !(yesAnswer env.confirm) then
    ⟨[], [], rd.cloned, DetailRes.stay, ""⟩
  else if !(isContained (home ++ "/projekte") lp) then
    ⟨[], [], rd.cloned, DetailRes.stay,
      "Abbruch: Pfad nicht unter ~/projekte, Sicherheitsabbruch."⟩
  else if env.rmtreeFails then
    ⟨[FsOp.rmtreeOp lp], [], rd.cloned, DetailRes.stay, "Fehler beim lokalen Loeschen"⟩
  else
    ⟨[FsOp.rmtreeOp lp], [auditLine ts "local_delete" rd.full_name lp true none],
      false, DetailRes.reload, "Lokal geloescht: " ++ lp⟩

/-! ### Remote delete action (key d, tui_repos.py lines 301-323) -/

/-- Outcome of the key-d branch: control flow, audit lines appended (the
source appends none here) and the user message. -/
structure RemoteDeleteOutcome where
  res : DetailRes
  log : List String
  msg : String
deriving DecidableEq

/-- The whole key-d branch: on a y-confirmation the remote delete runs; on
success `show_details` returns True, on failure or refusal it loops. -/
def showDetailsDeleteRemote (rd : Rec) (confirm : String)
    (remoteDelete : Except String Unit) : RemoteDeleteOutcome :=
  if yesAnswer confirm then
    match remoteDelete with
    | Except.ok _ => ⟨DetailRes.reload, [], "Repo " ++ rd.name ++ " geloescht."⟩
    | Except.error e => ⟨DetailRes.stay, [], "Fehler beim Loeschen: " ++ e⟩
  else
    ⟨DetailRes.stay, [], ""⟩

/-! ### Edit action (key e, tui_repos.py lines 324-352) -/

/-- The four prompt answers of the edit flow (the name prompt is issued
twice) and whether the remote `repo.edit` call succeeds. -/
structure EditEnv where
  name1 : String
  name2 : String
  desc : String
  priv : String
  remoteOk : Bool
deriving DecidableEq

/-- Arguments the flow passes to the remote `repo.edit` call:
`name=new_name, description=new_desc or None, private=is_private`. -/
structure EditCall where
  name : String
  description : Option String
  isPrivate : Bool
deriving DecidableEq

/-- Observable outcome of the edit flow. -/
structure EditOutcome where
  prompts : List String
  call : EditCall
  rdataAfter : Rec
  res : DetailRes
  log : List String
deriving DecidableEq

/-- Prompt text of line 325/326. -/
def namePromptOf (rd : Rec) : String := "Neuer Name [" ++ rd.name ++ "]: "

/-- Prompt text of line 329 (`rdata.get('description') or ''`). -/
def descPromptOf (rd : Rec) : String :=
  "Beschreibung [" ++ rd.description.getD "" ++ "]: "

/-- Prompt text of line 330. -/
def privPromptOf (rd : Rec) : String :=
  "Privat? (y/N) [" ++ (if rd.isPrivate then "Y" else "N") ++ "]: "

/-- The whole key-e branch.  The name is prompted twice and the first answer
is overwritten; an empty second answer falls back to the current name; an
empty description becomes `None` in the call; an empty visibility answer
keeps the current flag.  The in-memory record is not modified: on success the
flow returns True and the main loop refetches everything. -/
def showDetailsEdit (rd : Rec) (env : EditEnv) : EditOutcome :=
  let newName := if env.name2 == "" then rd.name else env.name2
  let isPriv := if env.priv == "" then rd.isPrivate else strStarts (lowStr env.priv) "y"
  let call : EditCall := ⟨newName, (if env.desc == "" then none else some env.desc), isPriv⟩
  ⟨[namePromptOf rd, namePromptOf rd, descPromptOf rd, privPromptOf rd],
    call, rd, (if env.remoteOk then DetailRes.reload else DetailRes.stay), []⟩

/-! ### Create flow (tui_repos.py lines 226-240) -/

/-- Result of `create_repo_flow` plus whether the remote create call was
reached at all. -/
structure CreateOutcome where
  ok : Bool
  msg : String
  remoteCalled : Bool
deriving DecidableEq

/-- `create_repo_flow`: an empty name aborts before any remote call;
otherwise `user.create_repo` runs and the outcome is reported. -/
def create_repo_flow (name _desc _priv : String)
    (remoteCreate : Except String Unit) : CreateOutcome :=
  if name == "" then
    ⟨false, "Abgebrochen", false⟩
  else
    match remoteCreate with
    | Except.ok _ => ⟨true, "Repo " ++ name ++ " erstellt", true⟩
    | Except.error e => ⟨false, e, true⟩

/-! ### Processing-phase log (tui_repos.py lines 176-191)

`build_repo_dicts_progress` appends one comparison line per repository to the
same `~/logs/proman.log` file the actions append to. -/

/-- The audit-file lines appended while building the record dicts. -/
def build_repo_dicts_log (home ts : String) (rds : List Rec) : List String :=
  rds.map (fun rd =>
    ts ++ " compare repo=" ++ rd.full_name ++ " local_path=" ++ localPathOf home rd ++
      " exists=" ++ (if rd.cloned then "True" else "False"))

/-! ### Main loop navigation and refresh (tui_repos.py lines 551-618) -/

/-- Up/down keys of the list screen. -/
inductive NavKey where
  | up
  | down
deriving DecidableEq

/-- Lines 578-581: `selected = max(0, selected - 1)` on up,
`selected = min(len(repos_data) - 1, selected + 1)` on down, over a list of
`n` records.  Python ints are unbounded, so the index is an integer. -/
def mainCursesNavStep (n : Nat) (sel : Int) : NavKey → Int
  | NavKey.up => max 0 (sel - 1)
  | NavKey.down => min ((n : Int) - 1) (sel + 1)

/-- A sequence of up/down presses. -/
def mainCursesNavRun (n : Nat) (sel : Int) (ks : List NavKey) : Int :=
  ks.foldl (mainCursesNavStep n) sel

/-- The list-screen state the main loop owns. -/
structure Session where
  records : List Rec
  selected : Int
deriving DecidableEq

/-- Lines 582-592: after `show_details` returns, a True result refetches the
whole list and resets the selection to 0; a False result leaves the session
unchanged. -/
def mainCursesEnterStep (reload : Bool) (refetched : List Rec) (s : Session) : Session :=
  if reload then ⟨refetched, 0⟩ else s

/-- Lines 595-609: the key-c handler runs `create_repo_flow`, shows its
message, and then refetches the whole list and resets the selection to 0
regardless of the flow's outcome. -/
def mainCursesCreateStep (name desc priv : String) (remoteCreate : Except String Unit)
    (refetched : List Rec) (_s : Session) : Session × CreateOutcome :=
  (⟨refetched, 0⟩, create_repo_flow name desc priv remoteCreate)

/-! ### Concrete records for witnesses and counterexamples -/

/-- A record that is cloned locally. -/
def recA : Rec := ⟨"alpha", "u/alpha", none, false, true, "", "https://e/u/alpha"⟩

/-- A record with a description, not cloned. -/
def recB : Rec :=
  ⟨"beta", "u/beta", some "Alte Beschreibung", true, false, "git@e:u/beta.git", "https://e/u/beta"⟩

/-- A third record. -/
def recC : Rec := ⟨"gamma", "u/gamma", none, false, false, "", "https://e/u/gamma"⟩

/-! ## Claims -/

/-- Claim C1, counterexample: the containment check does not canonicalize
away symlinks.  With `/home/u/projekte/link` a symlink to `/etc`, the code
accepts the candidate `/home/u/projekte/link` (lexical prefix match), while
its symlink-free canonical form `/etc` is outside the root, so the claimed
characterization through symlink-free canonical paths fails here. -/
theorem pathsafety_symlink_counterexample :
    isContained "/home/u/projekte" "/home/u/projekte/link" = true ∧
    specIsContained evilLinks "/home/u/projekte" "/home/u/projekte/link" = false := by
  decide

/-- Claim C1, amended: the containment check resolves both paths by lexical
absolute normalization only (symlinks are not resolved) and returns true iff
the normalized candidate equals the normalized root or starts with it
followed by the path separator; the three concrete examples of the claim
hold. -/
theorem pathsafety_lexical_containment :
    (∀ root cand : String,
        isContained root cand =
          (normAbs cand == normAbs root || strStarts (normAbs cand) (normAbs root ++ "/"))) ∧
    isContained "/home/u/projekte" "/home/u/projekte/foo" = true ∧
    isContained "/home/u/projekte" "/home/u/projekte-evil/foo" = false ∧
    isContained "/home/u/projekte" "/home/u/projekte/../escape" = false :=
  ⟨fun _ _ => rfl, by decide, by decide, by decide⟩

/-- Claim C2, counterexample: on the empty records list a single down press
drives the selection index to `min(len-1, 0+1) = min(-1, 1) = -1`, which is
negative, so the clamp invariant does not cover the empty list. -/
theorem nav_index_empty_counterexample :
    mainCursesNavRun 0 0 [NavKey.down] = -1 ∧ (-1 : Int) < 0 := by
  decide

/-- Claim C2, amended: over every non-empty records list, for every sequence
of up/down key presses, a selection index starting inside `[0, len-1]` stays
inside `[0, len-1]` (boundary clamp, no wraparound). -/
theorem nav_index_clamped_nonempty (n : Nat) (ks : List NavKey) :
    ∀ sel : Int, 1 ≤ n → 0 ≤ sel → sel ≤ (n : Int) - 1 →
      0 ≤ mainCursesNavRun n sel ks ∧ mainCursesNavRun n sel ks ≤ (n : Int) - 1 := by
  induction ks with
  | nil =>
      intro sel _ h0 h1
      exact ⟨h0, h1⟩
  | cons k ks ih =>
      intro sel hn h0 h1
      have hn1 : (1 : Int) ≤ (n : Int) := by exact_mod_cast hn
      have hstep : mainCursesNavRun n sel (k :: ks) =
          mainCursesNavRun n (mainCursesNavStep n sel k) ks := rfl
      rw [hstep]
      cases k with
      | up =>
          apply ih _ hn
          · simp only [mainCursesNavStep]
            omega
          · simp only [mainCursesNavStep]
            omega
      | down =>
          apply ih _ hn
          · simp only [mainCursesNavStep]
            omega
          · simp only [mainCursesNavStep]
            omega

/-- Claim C2, witness: a concrete run on a two-element list stays clamped. -/
theorem nav_index_clamped_nonempty_witness :
    0 ≤ mainCursesNavRun 2 0 [NavKey.down, NavKey.down, NavKey.up] ∧
    mainCursesNavRun 2 0 [NavKey.down, NavKey.down, NavKey.up] ≤ (2 : Int) - 1 :=
  nav_index_clamped_nonempty 2 [NavKey.down, NavKey.down, NavKey.up] 0
    (by decide) (by decide) (by decide)

/-- Claim C3, counterexample: deleting the selected record (index 1 of 3, so
2 records remain) succeeds and the main loop resets the selection to 0, while
the claimed clamp `min(selectedIndex, len(records)-1)` is `min(1, 1) = 1`;
the records list is also rebuilt by a full refetch, not edited in place. -/
theorem delete_remote_minclamp_counterexample :
    (showDetailsDeleteRemote recB "y" (Except.ok ())).res = DetailRes.reload ∧
    (mainCursesEnterStep true [recA, recC] (Session.mk [recA, recB, recC] 1)).selected = 0 ∧
    min (1 : Int) ((2 : Int) - 1) = 1 ∧ (0 : Int) ≠ 1 := by
  decide

/-- Claim C3, amended: whenever a DeleteRemote action succeeds, the detail
view reports reload and the main loop replaces the records collection with a
full refetch and resets selectedIndex to 0 before the List screen is
redrawn. -/
theorem delete_remote_refreshes_and_resets (rd : Rec) (confirm : String)
    (refetched : List Rec) (s : Session) (hy : yesAnswer confirm = true) :
    (showDetailsDeleteRemote rd confirm (Except.ok ())).res = DetailRes.reload ∧
    mainCursesEnterStep true refetched s = Session.mk refetched 0 := by
  constructor
  · simp [showDetailsDeleteRemote, hy]
  · rfl

/-- Claim C3, witness: a concrete confirmed successful remote delete. -/
theorem delete_remote_refreshes_and_resets_witness :
    (showDetailsDeleteRemote recA "y" (Except.ok ())).res = DetailRes.reload ∧
    mainCursesEnterStep true [recA] (Session.mk [recA, recB] 1) = Session.mk [recA] 0 :=
  delete_remote_refreshes_and_resets recA "y" [recA] (Session.mk [recA, recB] 1) (by decide)

/-- Claim C4: when the local target directory exists and the overwrite prompt
is not answered with a y-prefixed confirmation, the clone action performs no
filesystem operation at all (neither the remove step nor the clone
subprocess), appends no audit line, leaves the cloned flag unchanged, and
loops back to the detail screen; consequently every filesystem is left
unchanged by its (empty) operation trace. -/
theorem clone_unconfirmed_overwrite_frame (home ts : String) (rd : Rec)
    (env : CloneEnv) (fs : List String)
    (hex : env.targetExists = true) (hno : yesAnswer env.confirm = false) :
    (showDetailsClone home ts rd env).ops = [] ∧
    (showDetailsClone home ts rd env).log = [] ∧
    (showDetailsClone home ts rd env).cloned = rd.cloned ∧
    (showDetailsClone home ts rd env).res = DetailRes.stay ∧
    applyOps fs (showDetailsClone home ts rd env).ops = fs := by
  simp [showDetailsClone, hex, hno, applyOps]

/-- Claim C4, witness: target exists, answer is n, filesystem untouched. -/
theorem clone_unconfirmed_overwrite_frame_witness :
    (showDetailsClone "/home/u" "T0" recA (CloneEnv.mk true "n" false 0 "" "")).ops = [] ∧
    (showDetailsClone "/home/u" "T0" recA (CloneEnv.mk true "n" false 0 "" "")).log = [] ∧
    (showDetailsClone "/home/u" "T0" recA (CloneEnv.mk true "n" false 0 "" "")).cloned = recA.cloned ∧
    (showDetailsClone "/home/u" "T0" recA (CloneEnv.mk true "n" false 0 "" "")).res = DetailRes.stay ∧
    applyOps ["/home/u/projekte/alpha"]
      (showDetailsClone "/home/u" "T0" recA (CloneEnv.mk true "n" false 0 "" "")).ops =
      ["/home/u/projekte/alpha"] :=
  clone_unconfirmed_overwrite_frame "/home/u" "T0" recA (CloneEnv.mk true "n" false 0 "" "")
    ["/home/u/projekte/alpha"] rfl (by decide)

/-- Claim C5, counterexample: on a confirmed overwrite the old local tree is
removed before cloning, so when the clone subprocess then exits non-zero the
local filesystem is not left unchanged (the previously existing clone is
gone). -/
theorem clone_failure_fs_changed_counterexample :
    (showDetailsClone "/home/u" "T0" recA (CloneEnv.mk true "y" false 1 "" "fatal")).res =
      DetailRes.stay ∧
    applyOps ["/home/u/projekte", "/home/u/projekte/alpha"]
        ((showDetailsClone "/home/u" "T0" recA (CloneEnv.mk true "y" false 1 "" "fatal")).ops) ≠
      ["/home/u/projekte", "/home/u/projekte/alpha"] := by
  decide

/-- Claim C5, amended: whenever the clone subprocess runs and exits non-zero,
the action performs no filesystem operation after the subprocess call (the
operation trace ends with the clone invocation), leaves the cloned flag
unchanged, appends as its final audit line a clone entry with success=False
carrying the captured error text (stderr, or stdout when stderr is empty),
and loops back to the detail screen without raising; a confirmed overwrite
may however already have removed the previous tree before the clone ran. -/
theorem clone_failure_no_further_mutation (home ts : String) (rd : Rec) (env : CloneEnv)
    (hreach : env.targetExists = false ∨
      (yesAnswer env.confirm = true ∧ env.rmtreeFails = false))
    (hrc : env.cloneRc ≠ 0) :
    (showDetailsClone home ts rd env).cloned = rd.cloned ∧
    (showDetailsClone home ts rd env).res = DetailRes.stay ∧
    (∃ l, (showDetailsClone home ts rd env).log =
      l ++ [auditLine ts "clone" rd.full_name (localPathOf home rd) false
        (some (if env.cloneStderr == "" then env.cloneStdout else env.cloneStderr))]) ∧
    (∃ p, (showDetailsClone home ts rd env).ops =
      p ++ [FsOp.makedirsOp (dirnameStr (localPathOf home rd)),
            FsOp.gitClone (cloneUrlOf rd) (localPathOf home rd)]) := by
  have hrc0 : (env.cloneRc == 0) = false := by
    simp [hrc]
  rcases hreach with h | ⟨hy, hr⟩
  · refine ⟨?_, ?_, ⟨[], ?_⟩, ⟨[], ?_⟩⟩ <;>
      simp [showDetailsClone, cloneProceed, h, hrc0]
  · cases hte : env.targetExists
    · refine ⟨?_, ?_, ⟨[], ?_⟩, ⟨[], ?_⟩⟩ <;>
        simp [showDetailsClone, cloneProceed, hte, hrc0]
    · refine ⟨?_, ?_,
        ⟨[auditLine ts "local_delete_before_clone" rd.full_name (localPathOf home rd) true none], ?_⟩,
        ⟨[FsOp.rmtreeOp (localPathOf home rd)], ?_⟩⟩ <;>
        simp [showDetailsClone, cloneProceed, hte, hy, hr, hrc0]

/-- Claim C5, witness: a fresh clone that fails with stderr text boom leaves
the cloned flag unchanged and loops back. -/
theorem clone_failure_no_further_mutation_witness :
    (showDetailsClone "/home/u" "T0" recA (CloneEnv.mk false "" false 1 "boom" "")).cloned =
      recA.cloned ∧
    (showDetailsClone "/home/u" "T0" recA (CloneEnv.mk false "" false 1 "boom" "")).res =
      DetailRes.stay := by
  have h := clone_failure_no_further_mutation "/home/u" "T0" recA
    (CloneEnv.mk false "" false 1 "boom" "") (Or.inl rfl) (by decide)
  exact ⟨h.1, h.2.1⟩

/-- Claim C6: on a record that is not cloned locally (no directory at its
local path), the DeleteLocal action is a no-op: it reports that the path is
not present, performs no filesystem operation, appends no audit line, keeps
the cloned flag, loops back, and leaves every filesystem unchanged. -/
theorem delete_local_absent_noop (home ts : String) (rd : Rec)
    (env : DeleteLocalEnv) (fs : List String)
    (_hflag : rd.cloned = false) (hex : env.targetExists = false) :
    (showDetailsDeleteLocal home ts rd env).ops = [] ∧
    (showDetailsDeleteLocal home ts rd env).log = [] ∧
    (showDetailsDeleteLocal home ts rd env).cloned = rd.cloned ∧
    (showDetailsDeleteLocal home ts rd env).res = DetailRes.stay ∧
    (showDetailsDeleteLocal home ts rd env).msg =
      "Lokaler Pfad nicht vorhanden: " ++ localPathOf home rd ∧
    applyOps fs (showDetailsDeleteLocal home ts rd env).ops = fs := by
  simp [showDetailsDeleteLocal, hex, applyOps]

/-- Claim C6, witness: concrete not-cloned record, nothing happens. -/
theorem delete_local_absent_noop_witness :
    (showDetailsDeleteLocal "/home/u" "T0" recC (DeleteLocalEnv.mk false "y" false)).ops = [] ∧
    (showDetailsDeleteLocal "/home/u" "T0" recC (DeleteLocalEnv.mk false "y" false)).log = [] ∧
    (showDetailsDeleteLocal "/home/u" "T0" recC (DeleteLocalEnv.mk false "y" false)).cloned =
      recC.cloned ∧
    (showDetailsDeleteLocal "/home/u" "T0" recC (DeleteLocalEnv.mk false "y" false)).res =
      DetailRes.stay ∧
    (showDetailsDeleteLocal "/home/u" "T0" recC (DeleteLocalEnv.mk false "y" false)).msg =
      "Lokaler Pfad nicht vorhanden: " ++ localPathOf "/home/u" recC ∧
    applyOps ["/x"] (showDetailsDeleteLocal "/home/u" "T0" recC
      (DeleteLocalEnv.mk false "y" false)).ops = ["/x"] :=
  delete_local_absent_noop "/home/u" "T0" recC (DeleteLocalEnv.mk false "y" false)
    ["/x"] rfl rfl

/-- Claim C7, counterexample: a successful edit and a successful remote
delete are state-changing actions, yet both append zero audit lines, so a
sequence of N state-changing actions does not produce exactly N log lines. -/
theorem audit_edit_logs_nothing_counterexample :
    (showDetailsEdit recB (EditEnv.mk "x" "" "" "" true)).res = DetailRes.reload ∧
    (showDetailsEdit recB (EditEnv.mk "x" "" "" "" true)).log = [] ∧
    (showDetailsDeleteRemote recA "y" (Except.ok ())).res = DetailRes.reload ∧
    (showDetailsDeleteRemote recA "y" (Except.ok ())).log = [] := by
  decide

/-- Claim C7, amended: only clone attempts and local deletes append audit
lines (exactly one per attempt, in the documented key=value format with the
success flag rendered True/False); remote delete and edit append none; and
the record-processing phase of every load or refresh appends one compare
line per repository to the same file.  Hence the file does not contain
exactly one line per state-changing action. -/
theorem audit_lines_by_action :
    (∀ (rd : Rec) (c : String) (r : Except String Unit),
        (showDetailsDeleteRemote rd c r).log = []) ∧
    (∀ (rd : Rec) (e : EditEnv), (showDetailsEdit rd e).log = []) ∧
    (∀ (home ts : String) (rds : List Rec),
        (build_repo_dicts_log home ts rds).length = rds.length) ∧
    (∀ (ts confirm so se : String) (rc : Nat),
        ((showDetailsClone "/home/u" ts recA (CloneEnv.mk false confirm false rc so se)).log).length = 1) ∧
    (∀ ts : String,
        (showDetailsDeleteLocal "/home/u" ts recA (DeleteLocalEnv.mk true "y" false)).log =
          [auditLine ts "local_delete" recA.full_name (localPathOf "/home/u" recA) true none]) := by
  refine ⟨?_, ?_, ?_, ?_, ?_⟩
  · intro rd c r
    simp only [showDetailsDeleteRemote]
    split
    · cases r <;> rfl
    · rfl
  · intro rd e
    rfl
  · intro home ts rds
    simp [build_repo_dicts_log]
  · intro ts c so se rc
    simp only [showDetailsClone, cloneProceed]
    split
    · simp_all
    · split <;> simp
  · intro ts
    have h1 : yesAnswer "y" = true := by decide
    have h2 : isContained "/home/u/projekte" (localPathOf "/home/u" recA) = true := by decide
    simp [showDetailsDeleteLocal, h1, h2]

/-- Claim C8, counterexample: the record carries description Alte
Beschreibung, the edit prompt is submitted empty, and the remote edit call
receives None for the description instead of the existing value. -/
theorem edit_empty_description_counterexample :
    recB.description = some "Alte Beschreibung" ∧
    (showDetailsEdit recB (EditEnv.mk "x" "nm" "" "" true)).call.description = none ∧
    some "Alte Beschreibung" ≠ (none : Option String) := by
  decide

/-- Claim C8, amended: in the Edit flow an empty name keeps the current name
and an empty visibility answer keeps the current flag, but an empty
description is passed to the remote edit call as None rather than the
existing value; and on success the in-memory record is not field-updated at
all — the flow returns reload and the session is refreshed by a full
refetch instead. -/
theorem edit_empty_inputs_behavior (rd : Rec) (e : EditEnv) :
    (e.name2 = "" → (showDetailsEdit rd e).call.name = rd.name) ∧
    (e.priv = "" → (showDetailsEdit rd e).call.isPrivate = rd.isPrivate) ∧
    (e.desc = "" → (showDetailsEdit rd e).call.description = none) ∧
    (showDetailsEdit rd e).rdataAfter = rd ∧
    (e.remoteOk = true → (showDetailsEdit rd e).res = DetailRes.reload) := by
  refine ⟨?_, ?_, ?_, rfl, ?_⟩
  · intro h
    simp [showDetailsEdit, h]
  · intro h
    simp [showDetailsEdit, h]
  · intro h
    simp [showDetailsEdit, h]
  · intro h
    simp [showDetailsEdit, h]

/-- Claim C8, witness: all three prompts empty on a concrete record. -/
theorem edit_empty_inputs_behavior_witness :
    (showDetailsEdit recB (EditEnv.mk "x" "" "" "" true)).call.name = recB.name ∧
    (showDetailsEdit recB (EditEnv.mk "x" "" "" "" true)).call.isPrivate = recB.isPrivate ∧
    (showDetailsEdit recB (EditEnv.mk "x" "" "" "" true)).call.description = none ∧
    (showDetailsEdit recB (EditEnv.mk "x" "" "" "" true)).rdataAfter = recB ∧
    (showDetailsEdit recB (EditEnv.mk "x" "" "" "" true)).res = DetailRes.reload := by
  have h := edit_empty_inputs_behavior recB (EditEnv.mk "x" "" "" "" true)
  exact ⟨h.1 rfl, h.2.1 rfl, h.2.2.1 rfl, h.2.2.2.1, h.2.2.2.2 rfl⟩

/-- Claim C9, counterexample: an empty name aborts the create flow with no
remote call, yet the main loop still performs the full session refresh
(records replaced, selection reset), so refresh-iff-success fails. -/
theorem create_refresh_despite_abort_counterexample :
    (create_repo_flow "" "d" "n" (Except.error "unreachable")).remoteCalled = false ∧
    (create_repo_flow "" "d" "n" (Except.error "unreachable")).ok = false ∧
    (mainCursesCreateStep "" "d" "n" (Except.error "unreachable") [recB]
      (Session.mk [recA, recB] 1)).fst = Session.mk [recB] 0 ∧
    Session.mk [recB] 0 ≠ Session.mk [recA, recB] 1 := by
  decide

/-- Claim C9, amended: an empty name input aborts the create flow with no
remote call made and the message Abgebrochen, but the main loop performs the
full session refresh (refetch, selection reset to 0) unconditionally after
the create flow, whatever its outcome. -/
theorem create_abort_and_unconditional_refresh (name desc priv : String)
    (rc : Except String Unit) (refetched : List Rec) (s : Session) :
    create_repo_flow "" desc priv rc = CreateOutcome.mk false "Abgebrochen" false ∧
    (mainCursesCreateStep name desc priv rc refetched s).fst = Session.mk refetched 0 :=
  ⟨rfl, rfl⟩

/-- Claim C10: in the Edit flow the new-name prompt is issued twice in a row
with identical text, the first answer is discarded (the outcome is the same
for any first answer), and the submitted name is the second answer, falling
back to the current name when the second answer is empty. -/
theorem edit_name_prompted_twice_first_discarded (rd : Rec)
    (n1 n1Other n2 d p : String) (ok : Bool) :
    (showDetailsEdit rd (EditEnv.mk n1 n2 d p ok)).prompts =
      [namePromptOf rd, namePromptOf rd, descPromptOf rd, privPromptOf rd] ∧
    showDetailsEdit rd (EditEnv.mk n1 n2 d p ok) =
      showDetailsEdit rd (EditEnv.mk n1Other n2 d p ok) ∧
    (showDetailsEdit rd (EditEnv.mk n1 n2 d p ok)).call.name =
      (if n2 == "" then rd.name else n2) :=
  ⟨rfl, rfl, rfl⟩

end Proman
